import Mathlib

/-!
Verification of dossier.web (routes and the near-duplicate filter pipeline).

The route layer (`v1_search`, `v1_random_fc_get`, `paginate`, `str_to_max_int`,
the result-tuple transformation) is embedded from `dossier/web/routes.py`.
The filter-predicate and sampling modules (`nilsimsa_near_duplicates`,
`already_labeled`, `streaming_sample`) are not present in the source tree
(only their tests and callers are), so they are modelled from the
specification, as marked on each such definition.
-/

/-! ### Basic types -/

abbrev ContentId := String

/-- A nilsimsa fingerprint: a hex digest string. -/
abbrev Fp := String

/-- A feature collection as seen by the near-duplicate filter: a mapping from
feature name to a multiset of strings (the keys of a `StringCounter`). -/
abbrev NFC := List (String × List String)

/-- Untyped values flowing through the route layer (Python objects):
strings, integers and dictionaries. -/
inductive PyVal where
  | str : String → PyVal
  | int : Int → PyVal
  | dict : List (String × PyVal) → PyVal

/-- A per-query filter predicate over candidate `(content_id, fc)` pairs. -/
abbrev CandPred := ContentId × PyVal → Bool

/-! ### Python `int()` and `str_to_max_int` (routes.py lines 258-262) -/

/-- Strip leading and trailing whitespace, as Python `int()` does before
parsing. -/
def pyStrip (cs : List Char) : List Char :=
  ((cs.dropWhile Char.isWhitespace).reverse.dropWhile Char.isWhitespace).reverse

/-- Parse a non-empty all-digit character list as a natural number. -/
def pyDigits? (cs : List Char) : Option Nat :=
  if cs.isEmpty then none
  else if cs.all Char.isDigit then
    some (cs.foldl (fun n c => n * 10 + (c.toNat - 48)) 0)
  else none

/-- Model of Python `int(s)` on a string: optional sign followed by digits,
surrounding whitespace ignored; `none` models the `ValueError`. -/
def pyInt (s : String) : Option Int :=
  match pyStrip s.toList with
  | '-' :: cs => (pyDigits? cs).map (fun n => -(n : Int))
  | '+' :: cs => (pyDigits? cs).map (fun n => (n : Int))
  | cs => (pyDigits? cs).map (fun n => (n : Int))

/-- Embedding of `str_to_max_int(s, maximum)` from routes.py: `min(maximum,
int(s))`, with `ValueError`/`TypeError` (unparsable string, or `None` for a
missing parameter) caught and mapped to `maximum`. -/
def str_to_max_int (s : Option String) (maximum : Int) : Int :=
  match s with
  | none => maximum
  | some str =>
    match pyInt str with
    | none => maximum
    | some n => min maximum n

/-! ### Pagination (routes.py `paginate`, lines 279-302)

The `Link` header is modelled as a list of `(relation, page number)` pairs:
`set_query_param` only rewrites the `page` query parameter of the request
URL, so the page number carries all the information of the generated URL. -/

/-- Embedding of `paginate(request, response, it)`: returns the page slice of
the stream together with the `Link` header relations.  `pageParam` and
`perpageParam` are the already-`int()`-parsed `page` and `perpage` query
parameters (`none` when absent). -/
def paginate {α : Type} (pageParam perpageParam : Option Int) (it : List α) :
    List α × List (String × Int) :=
  let page : Int := max 1 (pageParam.getD 1)
  let per : Int := min 500 (max 1 (perpageParam.getD 2))
  let start : Int := (page - 1) * per
  let links : List (String × Int) :=
    (if page > 1 then [("first", (1 : Int)), ("prev", page - 1)] else [])
      ++ [("next", page + 1)]
  (((it.drop start.toNat).take per.toNat), links)

/-! ### Search route (routes.py `v1_search`, lines 48-119) -/

/-- A registered search engine, already `config.create`d: it receives the
query content id, the composed filter predicate and the effective limit, and
yields the raw result tuples (each a Python tuple, modelled as a list of
values). -/
abbrev Engine := ContentId → CandPred → Int → List (List PyVal)

/-- A registered filter-predicate initializer, already `config.create`d: it
receives the query content id and yields the per-query predicate. -/
abbrev FilterInit := ContentId → CandPred

/-- Resolve every name in a registry, failing on the first unknown name;
this embeds the list comprehension over `filter_preds` whose `KeyError`
aborts the request (routes.py line 88). -/
def lookup_all {β : Type} (registry : List (String × β)) : List String → Option (List β)
  | [] => some []
  | n :: ns =>
    match registry.lookup n with
    | none => none
    | some v =>
      match lookup_all registry ns with
      | none => none
      | some vs => some (v :: vs)

/-- The filter names actually used (routes.py line 85): the requested
`filter` parameters, or the default when none were given. -/
def effective_filter_names (requested : List String) : List String :=
  if requested.isEmpty then ["already_labeled"] else requested

/-- The composed filter predicate of `v1_search` (routes.py lines 94-97):
the constant-true predicate when no predicate was built, otherwise the
conjunction of the per-query predicates. -/
def compose_filter_preds (preds : List CandPred) : CandPred :=
  if preds.length > 0 then (fun c => preds.all (fun p => p c)) else (fun _ => true)

/-- Modelled from the spec: the `already_labeled` default filter predicate
(its module is not under src/; routes.py line 85 and §4.1 of the spec name
it).  It rejects any candidate already connected to the query by a label;
the label store's connectivity relation is abstracted as `connected`. -/
def already_labeled (connected : ContentId → ContentId → Bool)
    (query_id : ContentId) : CandPred :=
  fun c => !(connected query_id c.1)

/-- Embedding of `fc_to_json(fc)` (routes.py lines 265-270): keep only the
features whose value is a unicode string or a `StringCounter` (here: a
string or a dictionary). -/
def fc_to_json : PyVal → PyVal
  | PyVal.dict d =>
    PyVal.dict (d.filter (fun p =>
      match p.2 with
      | PyVal.str _ => true
      | PyVal.dict _ => true
      | _ => false))
  | v => v

/-- Python dictionary item assignment, preserving insertion order. -/
def dict_set (d : List (String × PyVal)) (k : String) (v : PyVal) :
    List (String × PyVal) :=
  if d.any (fun p => p.1 = k) then
    d.map (fun p => if p.1 = k then (k, v) else p)
  else d ++ [(k, v)]

/-- Embedding of the per-tuple branch of the result loop (routes.py lines
105-117): a 2-tuple gets an empty info mapping, a 3-tuple starts from its
info mapping, any other length aborts with 500.  A 3-tuple whose third
element is not a mapping raises an uncaught `TypeError` on item assignment,
which the framework also surfaces as a 500. -/
def transform_tuple (omit_fc : Bool) : List PyVal → Except (Nat × String) PyVal
  | [cid, fc] =>
    let result := dict_set [] "content_id" cid
    Except.ok (PyVal.dict (if omit_fc then result else dict_set result "fc" (fc_to_json fc)))
  | [cid, fc, info] =>
    match info with
    | PyVal.dict d =>
      let result := dict_set d "content_id" cid
      Except.ok (PyVal.dict (if omit_fc then result else dict_set result "fc" (fc_to_json fc)))
    | _ => Except.error (500, "TypeError: info is not a mapping")
  | _ => Except.error (500, "Invalid search result")

/-- Embedding of the result loop of `v1_search` (routes.py lines 104-118):
transform each tuple in order, aborting at the first invalid one. -/
def transform_results (omit_fc : Bool) : List (List PyVal) → Except (Nat × String) (List PyVal)
  | [] => Except.ok []
  | t :: ts =>
    match transform_tuple omit_fc t with
    | Except.error e => Except.error e
    | Except.ok r =>
      match transform_results omit_fc ts with
      | Except.error e => Except.error e
      | Except.ok rs => Except.ok (r :: rs)

/-- The query parameters of a search request that the handler reads. -/
structure SearchReq where
  filters : List String
  limit : Option String
  omit_fc : Bool

/-- Embedding of `v1_search` (routes.py lines 48-119): resolve the engine
name (404 on failure), resolve every effective filter name (404 on failure),
compose the per-query predicates, cap the limit, run the engine and
transform its result tuples. -/
def v1_search (search_engines : List (String × Engine))
    (filter_preds : List (String × FilterInit))
    (cid : ContentId) (engine_name : String) (req : SearchReq) :
    Except (Nat × String) (List PyVal) :=
  match search_engines.lookup engine_name with
  | none => Except.error (404, "Search engine does not exist.")
  | some engine =>
    match lookup_all filter_preds (effective_filter_names req.filters) with
    | none => Except.error (404, "Rank filter does not exist.")
    | some inits =>
      let preds := inits.map (fun f => f cid)
      let filter_pred := compose_filter_preds preds
      let limit := str_to_max_int req.limit 100
      transform_results req.omit_fc (engine cid filter_pred limit)

/-! ### Near-duplicate filter (spec §4.2; module not under src/)

The filter is exercised by `src/dossier/web/tests/test_filter_preds.py`,
which fixes the reserved feature name and the construction of the candidate
streams; the filter itself is modelled from the specification.  The external
nilsimsa comparison metric is abstracted as a `score` function. -/

/-- The reserved feature name holding the nilsimsa fingerprint multiset
(`test_filter_preds.py` line 36). -/
def nilsimsa_feature_name : String := "#nilsimsa_all"

/-- Extract the fingerprint multiset stored under the reserved feature name
(empty when the feature is absent). -/
def extract_fps (fc : NFC) : List Fp :=
  (fc.lookup nilsimsa_feature_name).getD []

/-- Whether any pair of an accumulated fingerprint and a candidate
fingerprint scores at or above the threshold. -/
def fps_match (score : Fp → Fp → Int) (threshold : Int)
    (acc cfps : List Fp) : Bool :=
  acc.any (fun a => cfps.any (fun c => threshold ≤ score a c))

/-- Modelled from the spec (§4.2 per-candidate decision): one step of the
accumulating predicate on a candidate feature collection.  An empty
candidate fingerprint set admits (fail open); a pairwise score at or above
the threshold rejects without touching the accumulated set; otherwise the
candidate is admitted and its fingerprints are accumulated. -/
def nilsimsaStepFC (score : Fp → Fp → Int) (threshold : Int)
    (acc : List Fp) (fc : NFC) : Bool × List Fp :=
  let cfps := extract_fps fc
  if cfps.isEmpty then (true, acc)
  else if fps_match score threshold acc cfps then (false, acc)
  else (true, acc ++ cfps)

/-- The same step on a `(content_id, fc)` candidate pair; the decision
depends only on the feature collection. -/
def nilsimsaStep (score : Fp → Fp → Int) (threshold : Int)
    (acc : List Fp) (cand : ContentId × NFC) : Bool × List Fp :=
  nilsimsaStepFC score threshold acc cand.2

/-- Python's `filter` applied to a stateful accumulating predicate: keep the
elements the predicate admits, threading the state in stream order. -/
def accumFilter {σ α : Type} (step : σ → α → Bool × σ) : σ → List α → List α
  | _, [] => []
  | s, c :: cs =>
    match step s c with
    | (true, s') => c :: accumFilter step s' cs
    | (false, s') => accumFilter step s' cs

/-- The admit/reject decision sequence of the accumulating filter over a
candidate stream, starting from accumulated fingerprints `acc`. -/
def nilsimsa_decisions (score : Fp → Fp → Int) (threshold : Int) :
    List Fp → List (ContentId × NFC) → List Bool
  | _, [] => []
  | acc, c :: cs =>
    let r := nilsimsaStep score threshold acc c
    r.1 :: nilsimsa_decisions score threshold r.2 cs

/-- The decision sequence on the feature collections alone. -/
def nilsimsa_decisionsFC (score : Fp → Fp → Int) (threshold : Int) :
    List Fp → List NFC → List Bool
  | _, [] => []
  | acc, fc :: fcs =>
    let r := nilsimsaStepFC score threshold acc fc
    r.1 :: nilsimsa_decisionsFC score threshold r.2 fcs

/-- Modelled from the spec (§4.2): `nilsimsa_near_duplicates(label_store,
store, threshold)(query_id)` run over a candidate stream.  Initialization
fetches the query's feature collection from the store and extracts its
fingerprints; a query without fingerprints admits everything (fail open).
The spec's label-store exclusion seeding is given no per-candidate decision
rule in §4.2 and every claimed scenario uses an empty label store, so it is
not modelled. -/
def nilsimsa_near_duplicates (score : Fp → Fp → Int) (threshold : Int)
    (store : List (ContentId × NFC)) (query_id : ContentId)
    (candidates : List (ContentId × NFC)) : List (ContentId × NFC) :=
  let qfps := extract_fps ((store.lookup query_id).getD [])
  if qfps.isEmpty then candidates
  else accumFilter (nilsimsaStep score threshold) qfps candidates

/-! ### Test scenario of `test_nilsimsa_near_duplicates_update_logic`
(`test_filter_preds.py` lines 25-30 and 97-119) -/

/-- The four near-duplicate test sentences. -/
def near_duplicate_texts : List String :=
  [ "The quick brown fox jumps over the lazy dog.",
    "The quick brown fox jumps over the lazy dogs.",
    "The quick brown foxes jumped over the lazy dog.",
    "The quick brown foxes jumped over the lazy dogs." ]

/-- `make_fc(text)` from the test: a feature collection holding the text's
fingerprint under the reserved feature name; the external hash is abstracted
as `h`. -/
def make_fc (h : String → Fp) (text : String) : NFC :=
  [(nilsimsa_feature_name, [h text])]

/-- The stream of 4000 `(str(idx), make_fc(text))` pairs built by the
update-logic test from the four sentences repeated 1000 times. -/
def update_logic_fcs (h : String → Fp) : List (ContentId × NFC) :=
  ((List.replicate 1000 near_duplicate_texts).flatten).enum.map
    (fun p => (toString p.1, make_fc h p.2))

/-- The first stream element, popped as the query. -/
def update_logic_query (h : String → Fp) : ContentId × NFC :=
  (update_logic_fcs h).headD ("", [])

/-- The remaining 3999 stream elements, the filtered candidates. -/
def update_logic_candidates (h : String → Fp) : List (ContentId × NFC) :=
  (update_logic_fcs h).tail

/-- A concrete stand-in comparison metric: identical fingerprints score 128,
distinct ones score 0. -/
def eq_score (a b : Fp) : Int :=
  if a = b then 128 else 0

/-! ### Streaming reservoir sample and the random-fc route
(spec §4.4; `streaming_sample` is not under src/, its caller
`v1_random_fc_get` is routes.py lines 174-195) -/

/-- Modelled from the spec (§4.4): the replacement loop of reservoir
sampling over the items past the first `k`, with the random draw abstracted
as a `choice` oracle giving, for the item at 0-based stream index `i`,
either the reservoir slot to replace or `none` to keep the reservoir. -/
def reservoir_fold {α : Type} (choice : Nat → Option Nat) :
    List α → Nat → List α → List α
  | res, _, [] => res
  | res, i, x :: xs =>
    reservoir_fold choice
      (match choice i with
       | some slot => res.set slot x
       | none => res)
      (i + 1) xs

/-- Modelled from the spec (§4.4): `streaming_sample(it, k, limit)` — read
at most `limit` items, keep the first `k` unconditionally, then run the
reservoir replacement loop over the rest. -/
def streaming_sample {α : Type} (choice : Nat → Option Nat)
    (it : List α) (k : Nat) (limit : Nat) : List α :=
  let considered := it.take limit
  reservoir_fold choice (considered.take k) k (considered.drop k)

/-- Embedding of `v1_random_fc_get` (routes.py lines 174-195): sample one
content id from the store's id scan with cutoff 1000; 404 when the sample is
empty, otherwise the sampled id paired with its feature collection. -/
def v1_random_fc_get {α : Type} (choice : Nat → Option Nat)
    (store : List (ContentId × α)) :
    Except (Nat × String) (ContentId × Option α) :=
  let sample := streaming_sample choice (store.map Prod.fst) 1 1000
  match sample with
  | [] => Except.error (404, "The feature collection store is empty.")
  | cid :: _ => Except.ok (cid, store.lookup cid)

/-! ## Theorems -/

/-- Claim C9: the limit passed to the search engine is `min(100, int(limit))`
when the `limit` parameter parses as an integer and `100` when it is absent
or unparsable; a limit above 100 is silently capped at 100 and a negative
integer limit is passed through unclamped. -/
theorem claim_C9_limit_cap :
    (∀ s n, pyInt s = some n → str_to_max_int (some s) 100 = min 100 n)
    ∧ str_to_max_int none 100 = 100
    ∧ (∀ s, pyInt s = none → str_to_max_int (some s) 100 = 100)
    ∧ (∀ s n, pyInt s = some n → 100 < n → str_to_max_int (some s) 100 = 100)
    ∧ (∀ s n, pyInt s = some n → n < 0 → str_to_max_int (some s) 100 = n) := by
  refine ⟨?_, rfl, ?_, ?_, ?_⟩
  · intro s n hp
    simp [str_to_max_int, hp]
  · intro s hp
    simp [str_to_max_int, hp]
  · intro s n hp hlt
    simp only [str_to_max_int, hp]
    omega
  · intro s n hp hneg
    simp only [str_to_max_int, hp]
    omega

/-- Witness for C9 at the concrete limits "250", "-5", "abc" and a missing
parameter. -/
theorem claim_C9_witness :
    str_to_max_int (some "250") 100 = 100
    ∧ str_to_max_int (some "-5") 100 = -5
    ∧ str_to_max_int (some "abc") 100 = 100 :=
  ⟨claim_C9_limit_cap.2.2.2.1 "250" 250 (by decide) (by decide),
   claim_C9_limit_cap.2.2.2.2 "-5" (-5) (by decide) (by decide),
   claim_C9_limit_cap.2.2.1 "abc" (by decide)⟩

/-- Claim C10: the `Link` header always contains a `next` relation pointing
to `page + 1`, independently of the stream, and contains the `first` and
`prev` relations exactly when the requested page number exceeds 1. -/
theorem claim_C10_link_relations {α : Type} (pageParam perpageParam : Option Int)
    (it : List α) :
    ("next", max 1 (pageParam.getD 1) + 1) ∈ (paginate pageParam perpageParam it).2
    ∧ (("first", (1 : Int)) ∈ (paginate pageParam perpageParam it).2
        ↔ 1 < pageParam.getD 1)
    ∧ (("prev", max 1 (pageParam.getD 1) - 1) ∈ (paginate pageParam perpageParam it).2
        ↔ 1 < pageParam.getD 1)
    ∧ (paginate pageParam perpageParam it).2 = (paginate pageParam perpageParam ([] : List α)).2 := by
  by_cases hp : (1 : Int) < pageParam.getD 1
  · have hmax : max 1 (pageParam.getD 1) = pageParam.getD 1 := max_eq_right (le_of_lt hp)
    have hgt : max 1 (pageParam.getD 1) > 1 := by omega
    simp [paginate, hgt, hmax, hp, Prod.ext_iff]
  · have hmax : max 1 (pageParam.getD 1) = 1 := max_eq_left (by omega)
    have hgt : ¬ (max 1 (pageParam.getD 1) > 1) := by omega
    simp [paginate, hgt, hmax, hp, Prod.ext_iff]

/-- Claim C6 counterexample: with `perpage=0` the claimed page size
(`perpage` clamped only from above by 500) would be 0 and page 1 would be
empty, but the code also clamps from below at 1 and returns one item. -/
theorem claim_C6_counterexample :
    (paginate (some 1) (some 0) ([10, 11, 12, 13, 14] : List Nat)).1 = [10]
    ∧ ([10] : List Nat)
        ≠ (([10, 11, 12, 13, 14] : List Nat).drop 0).take (min 500 (0 : Int)).toNat := by
  decide

/-- Claim C6 (amended): the effective page size is the `perpage` parameter
clamped to the range [1, 500] (default 2 when absent), page `p` contains
exactly the stream items at 0-based indices from `(p-1)*per` up to `p*per`,
and the two concrete pages of the claim behave as stated. -/
theorem claim_C6_amended_pagination :
    (∀ (it : List Nat) (page pp : Int) (i : Nat),
       (paginate (some page) (some pp) it).1.length
         = min (min 500 (max 1 pp)).toNat
             (it.length - ((max 1 page - 1) * min 500 (max 1 pp)).toNat)
       ∧ (i < (min 500 (max 1 pp)).toNat →
           ((paginate (some page) (some pp) it).1)[i]?
             = it[((max 1 page - 1) * min 500 (max 1 pp)).toNat + i]?))
    ∧ (∀ (it : List Nat) (page : Option Int),
        paginate page none it = paginate page (some 2) it)
    ∧ (paginate (some 1) (some 2) ([10, 11, 12, 13, 14] : List Nat)).1 = [10, 11]
    ∧ ("next", (2 : Int)) ∈ (paginate (some 1) (some 2) ([10, 11, 12, 13, 14] : List Nat)).2
    ∧ (paginate (some 2) (some 2) ([10, 11, 12, 13, 14] : List Nat)).1 = [12, 13]
    ∧ (paginate (some 2) (some 2) ([10, 11, 12, 13, 14] : List Nat)).2
        = [("first", 1), ("prev", 1), ("next", 3)] := by
  refine ⟨?_, ?_, by decide, by decide, by decide, by decide⟩
  · intro it page pp i
    constructor
    · simp [paginate, List.length_take, List.length_drop]
    · intro hi
      simp only [paginate, Option.getD_some]
      rw [List.getElem?_take, if_pos hi, List.getElem?_drop]
  · intro it page
    rfl

/-- Witness for the amended C6 at a concrete page, page size and stream. -/
theorem claim_C6_witness :
    ((paginate (some 3) (some 2) ([10, 11, 12, 13, 14] : List Nat)).1)[0]?
      = ([10, 11, 12, 13, 14] : List Nat)[((max 1 (3 : Int) - 1) * min 500 (max 1 2)).toNat + 0]? :=
  (claim_C6_amended_pagination.1 [10, 11, 12, 13, 14] 3 2 0).2 (by decide)

/-- Resolving a name list fails as soon as one name is unknown. -/
theorem lookup_all_eq_none {β : Type} (registry : List (String × β)) (ns : List String)
    (n : String) (hmem : n ∈ ns) (hmiss : registry.lookup n = none) :
    lookup_all registry ns = none := by
  induction ns with
  | nil => cases hmem
  | cons m ms ih =>
    rcases List.mem_cons.mp hmem with h | h
    · subst h
      simp [lookup_all, hmiss]
    · cases hm : registry.lookup m with
      | none => simp [lookup_all, hm]
      | some v => simp [lookup_all, hm, ih h]

/-- Claim C5: an unknown search-engine name, or any unknown requested filter
name, makes the request fail with a 404 error; the error does not depend on
any engine's behaviour, so no search is executed. -/
theorem claim_C5_unknown_name_404 (search_engines : List (String × Engine))
    (filter_preds : List (String × FilterInit)) (cid : ContentId)
    (engine_name : String) (req : SearchReq) :
    (search_engines.lookup engine_name = none →
       v1_search search_engines filter_preds cid engine_name req
         = Except.error (404, "Search engine does not exist."))
    ∧ (∀ n, n ∈ req.filters → filter_preds.lookup n = none →
       ∃ m, v1_search search_engines filter_preds cid engine_name req
         = Except.error (404, m)) := by
  constructor
  · intro hmiss
    simp [v1_search, hmiss]
  · intro n hmem hmiss
    cases he : search_engines.lookup engine_name with
    | none =>
      exact ⟨"Search engine does not exist.", by simp [v1_search, he]⟩
    | some engine =>
      have hne : ¬ req.filters.isEmpty := by
        simp only [List.isEmpty_iff]
        exact List.ne_nil_of_mem hmem
      have hla : lookup_all filter_preds (effective_filter_names req.filters) = none := by
        rw [effective_filter_names, if_neg hne]
        exact lookup_all_eq_none filter_preds req.filters n hmem hmiss
      exact ⟨"Rank filter does not exist.", by simp [v1_search, he, hla]⟩

/-- Witness for C5: a request naming an engine and a filter absent from
empty registries fails with 404. -/
theorem claim_C5_witness :
    v1_search [] [] "q" "plain" ⟨["bogus"], none, false⟩
        = Except.error (404, "Search engine does not exist.")
    ∧ ∃ m, v1_search [] [] "q" "plain" ⟨["bogus"], none, false⟩
        = Except.error (404, m) :=
  ⟨(claim_C5_unknown_name_404 [] [] "q" "plain" ⟨["bogus"], none, false⟩).1 rfl,
   (claim_C5_unknown_name_404 [] [] "q" "plain" ⟨["bogus"], none, false⟩).2
     "bogus" (by simp) rfl⟩

/-- A tuple whose length is neither 2 nor 3 is rejected with a 500 error. -/
theorem transform_tuple_bad_length (o : Bool) (t : List PyVal)
    (h2 : t.length ≠ 2) (h3 : t.length ≠ 3) :
    ∃ m, transform_tuple o t = Except.error (500, m) := by
  match t with
  | [] => exact ⟨"Invalid search result", rfl⟩
  | [a] => exact ⟨"Invalid search result", rfl⟩
  | [a, b] => simp at h2
  | [a, b, c] => simp at h3
  | a :: b :: c :: d :: rest => exact ⟨"Invalid search result", rfl⟩

/-- Every error of the per-tuple transformation carries status 500. -/
theorem transform_tuple_error_500 (o : Bool) (t : List PyVal) (e : Nat × String)
    (h : transform_tuple o t = Except.error e) : e.1 = 500 := by
  match t with
  | [] => cases h; rfl
  | [a] => cases h; rfl
  | [a, b] => simp [transform_tuple] at h
  | [a, b, c] =>
    cases c with
    | dict d => simp [transform_tuple] at h
    | str s => cases h; rfl
    | int n => cases h; rfl
  | a :: b :: c :: d :: rest => cases h; rfl

/-- Every error of the result-loop transformation carries status 500. -/
theorem transform_results_error_500 (o : Bool) (ts : List (List PyVal)) (e : Nat × String)
    (h : transform_results o ts = Except.error e) : e.1 = 500 := by
  induction ts with
  | nil => simp [transform_results] at h
  | cons t ts ih =>
    simp only [transform_results] at h
    cases ht : transform_tuple o t with
    | error e' =>
      rw [ht] at h
      cases h
      exact transform_tuple_error_500 o t e ht
    | ok r =>
      rw [ht] at h
      cases hts : transform_results o ts with
      | error e' =>
        rw [hts] at h
        cases h
        exact ih hts
      | ok rs =>
        rw [hts] at h
        cases h

/-- If any tuple in the stream is malformed, the result loop fails. -/
theorem transform_results_fails (o : Bool) (ts : List (List PyVal))
    (h : ∃ t ∈ ts, t.length ≠ 2 ∧ t.length ≠ 3) :
    ∃ e, transform_results o ts = Except.error e := by
  induction ts with
  | nil => rcases h with ⟨t, ht, _⟩; cases ht
  | cons t ts ih =>
    simp only [transform_results]
    cases htup : transform_tuple o t with
    | error e => exact ⟨e, rfl⟩
    | ok r =>
      rcases h with ⟨u, hu, hu2, hu3⟩
      rcases List.mem_cons.mp hu with h | h
      · subst h
        rcases transform_tuple_bad_length o u hu2 hu3 with ⟨m, hm⟩
        rw [htup] at hm
        cases hm
      · rcases ih ⟨u, h, hu2, hu3⟩ with ⟨e, he⟩
        rw [he]
        exact ⟨e, rfl⟩

/-- Claim C8: a result tuple must have exactly 2 or 3 elements; any other
length fails the request with HTTP 500, a 2-tuple is treated as having an
empty info mapping, and a stream of well-formed tuples is transformed
without error. -/
theorem claim_C8_result_tuple_shape :
    (∀ (o : Bool) (ts : List (List PyVal)),
       (∃ t ∈ ts, t.length ≠ 2 ∧ t.length ≠ 3) →
       ∃ m, transform_results o ts = Except.error (500, m))
    ∧ (∀ (o : Bool) (cid fc : PyVal),
       ∃ d, transform_tuple o [cid, fc] = Except.ok (PyVal.dict d)
         ∧ ∀ p ∈ d, p.1 = "content_id" ∨ p.1 = "fc")
    ∧ (∀ (o : Bool) (ts : List (List PyVal)),
       (∀ t ∈ ts, t.length = 2 ∨ ∃ a b d, t = [a, b, PyVal.dict d]) →
       ∃ rs, transform_results o ts = Except.ok rs) := by
  refine ⟨?_, ?_, ?_⟩
  · intro o ts h
    rcases transform_results_fails o ts h with ⟨e, he⟩
    have h500 := transform_results_error_500 o ts e he
    rcases e with ⟨c, m⟩
    have hc : c = 500 := h500
    subst hc
    exact ⟨m, he⟩
  · intro o cid fc
    cases o with
    | false =>
      refine ⟨[("content_id", cid), ("fc", fc_to_json fc)], ?_, ?_⟩
      · simp [transform_tuple, dict_set]
      · intro p hp
        rcases List.mem_cons.mp hp with h | h
        · left; rw [h]
        · right; rw [List.mem_singleton.mp h]
    | true =>
      refine ⟨[("content_id", cid)], ?_, ?_⟩
      · simp [transform_tuple, dict_set]
      · intro p hp
        left
        rw [List.mem_singleton.mp hp]
  · intro o ts h
    induction ts with
    | nil => exact ⟨[], rfl⟩
    | cons t ts ih =>
      have hok : ∃ r, transform_tuple o t = Except.ok r := by
        rcases h t (List.mem_cons_self t ts) with h2 | ⟨a, b, d, rfl⟩
        · match t, h2 with
          | [x, y], _ => exact ⟨_, rfl⟩
        · exact ⟨_, rfl⟩
      rcases hok with ⟨r, hr⟩
      rcases ih (fun u hu => h u (List.mem_cons_of_mem t hu)) with ⟨rs, hrs⟩
      exact ⟨r :: rs, by simp [transform_results, hr, hrs]⟩

/-- Witness for C8: a 1-tuple in the stream yields a 500 error, and a
2-tuple alone is transformed with an empty info mapping. -/
theorem claim_C8_witness :
    (∃ m, transform_results false [[PyVal.str "x"]] = Except.error (500, m))
    ∧ (∃ d, transform_tuple true [PyVal.str "c", PyVal.dict []] = Except.ok (PyVal.dict d)
        ∧ ∀ p ∈ d, p.1 = "content_id" ∨ p.1 = "fc") :=
  ⟨claim_C8_result_tuple_shape.1 false [[PyVal.str "x"]]
     ⟨[PyVal.str "x"], by simp, by simp, by simp⟩,
   claim_C8_result_tuple_shape.2.1 true (PyVal.str "c") (PyVal.dict [])⟩

/-- Claim C1: with a non-empty list of named predicates the composed filter
admits a candidate exactly when every named predicate admits it; with zero
named filters the pipeline falls back to the fixed `already_labeled`
predicate, which rejects exactly the candidates already connected to the
query by a label; and `v1_search` hands the engine the composed predicate. -/
theorem claim_C1_filter_composition :
    (∀ (preds : List CandPred) (c : ContentId × PyVal), preds ≠ [] →
       (compose_filter_preds preds c = true ↔ ∀ p ∈ preds, p c = true))
    ∧ effective_filter_names [] = ["already_labeled"]
    ∧ (∀ (connected : ContentId → ContentId → Bool) (qid : ContentId)
         (c : ContentId × PyVal),
       already_labeled connected qid c = true ↔ ¬ connected qid c.1 = true)
    ∧ (∀ (search_engines : List (String × Engine))
         (filter_preds : List (String × FilterInit))
         (cid : ContentId) (engine_name : String) (req : SearchReq)
         (engine : Engine) (inits : List FilterInit),
       search_engines.lookup engine_name = some engine →
       lookup_all filter_preds (effective_filter_names req.filters) = some inits →
       v1_search search_engines filter_preds cid engine_name req
         = transform_results req.omit_fc
             (engine cid (compose_filter_preds (inits.map (fun f => f cid)))
               (str_to_max_int req.limit 100))) := by
  refine ⟨?_, rfl, ?_, ?_⟩
  · intro preds c hne
    have hlen : preds.length > 0 := List.length_pos.mpr hne
    simp [compose_filter_preds, hlen, List.all_eq_true]
  · intro connected qid c
    simp [already_labeled]
  · intro search_engines filter_preds cid engine_name req engine inits he hf
    simp [v1_search, he, hf]

/-- Witness for C1 at a concrete two-predicate list, a concrete
`already_labeled` rejection, and a concrete pipeline run. -/
theorem claim_C1_witness :
    (compose_filter_preds [fun _ => true, fun c => c.1 = "a"] ("a", PyVal.int 0) = true
      ↔ ∀ p ∈ ([fun _ => true, fun c => c.1 = "a"] : List CandPred),
          p ("a", PyVal.int 0) = true)
    ∧ (already_labeled (fun _ _ => true) "q" ("a", PyVal.int 0) = true
        ↔ ¬ (fun (_ _ : ContentId) => true) "q" "a" = true)
    ∧ v1_search [("plain", fun _ _ _ => [])] [("already_labeled", fun _ _ => true)]
          "q" "plain" ⟨[], none, false⟩
        = transform_results false
            ((fun (_ : ContentId) (_ : CandPred) (_ : Int) => ([] : List (List PyVal))) "q"
              (compose_filter_preds ([fun _ _ => true].map (fun f => f "q")))
              (str_to_max_int none 100)) :=
  ⟨claim_C1_filter_composition.1 [fun _ => true, fun c => c.1 = "a"] ("a", PyVal.int 0)
     (by simp),
   claim_C1_filter_composition.2.2.1 (fun _ _ => true) "q" ("a", PyVal.int 0),
   claim_C1_filter_composition.2.2.2 [("plain", fun _ _ _ => [])]
     [("already_labeled", fun _ _ => true)] "q" "plain" ⟨[], none, false⟩
     (fun _ _ _ => []) [fun _ _ => true] (by simp [List.lookup])
     (by simp [lookup_all, effective_filter_names, List.lookup])⟩

/-- A rejected candidate leaves the accumulated fingerprint set unchanged. -/
theorem nilsimsaStep_reject_state (score : Fp → Fp → Int) (threshold : Int)
    (acc : List Fp) (c : ContentId × NFC)
    (h : (nilsimsaStep score threshold acc c).1 = false) :
    (nilsimsaStep score threshold acc c).2 = acc := by
  unfold nilsimsaStep nilsimsaStepFC at *
  by_cases he : (extract_fps c.2).isEmpty
  · simp [he] at h
  · by_cases hm : fps_match score threshold acc (extract_fps c.2)
    · simp [he, hm]
    · simp [he, hm] at h

/-- Claim C2: a rejected candidate's fingerprints never poison later
decisions: the decision sequence after a rejected candidate `D` is the same
as if `D` had never appeared in the stream. -/
theorem claim_C2_non_poisoning (score : Fp → Fp → Int) (threshold : Int)
    (acc : List Fp) (D : ContentId × NFC) (cs : List (ContentId × NFC))
    (h : (nilsimsaStep score threshold acc D).1 = false) :
    (nilsimsaStep score threshold acc D).2 = acc
    ∧ nilsimsa_decisions score threshold acc (D :: cs)
        = false :: nilsimsa_decisions score threshold acc cs := by
  have hs := nilsimsaStep_reject_state score threshold acc D h
  exact ⟨hs, by simp only [nilsimsa_decisions, h, hs]⟩

/-- Witness for C2: a candidate fingerprint identical to an accumulated one
is rejected, and the following candidate's decision is unchanged. -/
theorem claim_C2_witness :
    nilsimsa_decisions eq_score 120 ["x"]
        [("d", [(nilsimsa_feature_name, ["x"])]), ("c", [(nilsimsa_feature_name, ["y"])])]
      = false :: nilsimsa_decisions eq_score 120 ["x"] [("c", [(nilsimsa_feature_name, ["y"])])] :=
  (claim_C2_non_poisoning eq_score 120 ["x"] ("d", [(nilsimsa_feature_name, ["x"])])
    [("c", [(nilsimsa_feature_name, ["y"])])] (by decide)).2

/-- Claim C3: a query without fingerprints under the reserved feature name
makes the filter admit every candidate, and a candidate whose own
fingerprint set is empty is admitted, in both cases without error
(fail open). -/
theorem claim_C3_fail_open (score : Fp → Fp → Int) (threshold : Int)
    (store : List (ContentId × NFC)) (query_id : ContentId)
    (candidates : List (ContentId × NFC)) (qfc : NFC)
    (hq1 : store.lookup query_id = some qfc)
    (hq2 : extract_fps qfc = []) :
    nilsimsa_near_duplicates score threshold store query_id candidates = candidates
    ∧ ∀ (acc : List Fp) (cid : ContentId) (fc : NFC), extract_fps fc = [] →
        (nilsimsaStep score threshold acc (cid, fc)).1 = true := by
  constructor
  · simp [nilsimsa_near_duplicates, hq1, hq2]
  · intro acc cid fc hfc
    simp [nilsimsaStep, nilsimsaStepFC, hfc]

/-- Witness for C3: a store whose query has no fingerprint feature admits a
concrete candidate stream unchanged, and a fingerprint-less candidate is
admitted. -/
theorem claim_C3_witness :
    nilsimsa_near_duplicates eq_score 120 [("q", [("other", ["v"])])] "q"
        [("c", [(nilsimsa_feature_name, ["z"])])]
      = [("c", [(nilsimsa_feature_name, ["z"])])]
    ∧ (nilsimsaStep eq_score 120 ["x"] ("c", [])).1 = true :=
  ⟨(claim_C3_fail_open eq_score 120 [("q", [("other", ["v"])])] "q"
      [("c", [(nilsimsa_feature_name, ["z"])])] [("other", ["v"])]
      (by decide) (by decide)).1,
   (claim_C3_fail_open eq_score 120 [("q", [("other", ["v"])])] "q"
      [("c", [(nilsimsa_feature_name, ["z"])])] [("other", ["v"])]
      (by decide) (by decide)).2 ["x"] "c" [] (by decide)⟩

/-- The decision sequence depends only on the feature collections. -/
theorem nilsimsa_decisions_eq_FC (score : Fp → Fp → Int) (threshold : Int)
    (acc : List Fp) (l : List (ContentId × NFC)) :
    nilsimsa_decisions score threshold acc l
      = nilsimsa_decisionsFC score threshold acc (l.map Prod.snd) := by
  induction l generalizing acc with
  | nil => rfl
  | cons c cs ih =>
    simp only [nilsimsa_decisions, nilsimsa_decisionsFC, List.map_cons, nilsimsaStep]
    rw [ih]

/-- The number of admitted candidates is the number of `true` decisions. -/
theorem accumFilter_length_eq_count (score : Fp → Fp → Int) (threshold : Int)
    (acc : List Fp) (l : List (ContentId × NFC)) :
    (accumFilter (nilsimsaStep score threshold) acc l).length
      = (nilsimsa_decisions score threshold acc l).count true := by
  induction l generalizing acc with
  | nil => rfl
  | cons c cs ih =>
    simp only [accumFilter, nilsimsa_decisions]
    cases hstep : nilsimsaStep score threshold acc c with
    | mk b s' =>
      cases b
      · simp [List.count_cons, ih s']
      · simp [List.count_cons, ih s']

/-- A stream every element of which is rejected at a fixed accumulator
contributes no admitted candidates. -/
theorem decisionsFC_count_true_zero (score : Fp → Fp → Int) (threshold : Int)
    (acc : List Fp) (l : List NFC)
    (h : ∀ fc ∈ l, nilsimsaStepFC score threshold acc fc = (false, acc)) :
    (nilsimsa_decisionsFC score threshold acc l).count true = 0 := by
  induction l with
  | nil => rfl
  | cons fc fcs ih =>
    have h0 := h fc (List.mem_cons_self fc fcs)
    simp only [nilsimsa_decisionsFC, h0]
    simp only [List.count_cons]
    simp
    exact ih (fun u hu => h u (List.mem_cons_of_mem fc hu))

/-- The feature collections of the update-logic stream, in order. -/
theorem update_logic_fcs_map_snd (h : String → Fp) :
    (update_logic_fcs h).map Prod.snd
      = ((List.replicate 1000 near_duplicate_texts).flatten).map (make_fc h) := by
  unfold update_logic_fcs
  rw [List.map_map]
  rw [show (Prod.snd ∘ fun p : Nat × String => (toString p.1, make_fc h p.2))
        = (make_fc h) ∘ Prod.snd from rfl]
  rw [← List.map_map, List.enum_map_snd]

/-- The feature collections of the candidate stream: the last three
sentences of the first cycle, then 999 further full cycles. -/
theorem update_logic_candidates_map_snd (h : String → Fp) :
    (update_logic_candidates h).map Prod.snd
      = make_fc h "The quick brown fox jumps over the lazy dogs."
        :: make_fc h "The quick brown foxes jumped over the lazy dog."
        :: make_fc h "The quick brown foxes jumped over the lazy dogs."
        :: ((List.replicate 999 near_duplicate_texts).flatten).map (make_fc h) := by
  unfold update_logic_candidates
  rw [List.map_tail, update_logic_fcs_map_snd]
  rw [show (1000 : Nat) = 999 + 1 from rfl, List.replicate_succ, List.flatten_cons,
    List.map_append]
  rw [show near_duplicate_texts
      = "The quick brown fox jumps over the lazy dog."
        :: "The quick brown fox jumps over the lazy dogs."
        :: "The quick brown foxes jumped over the lazy dog."
        :: "The quick brown foxes jumped over the lazy dogs." :: [] from rfl]
  rw [List.map_cons, List.map_cons, List.map_cons, List.map_cons, List.map_nil]
  rw [List.cons_append, List.tail_cons]
  rw [List.cons_append, List.cons_append, List.cons_append, List.nil_append]

/-- At an accumulator already holding every sentence's fingerprint, every
further cycle element is rejected and leaves the accumulator unchanged. -/
theorem nilsimsa_rest_rejected (score : Fp → Fp → Int) (h : String → Fp)
    (hself : ∀ t ∈ near_duplicate_texts, 120 ≤ score (h t) (h t)) (n : Nat) :
    ∀ fc ∈ ((List.replicate n near_duplicate_texts).flatten).map (make_fc h),
      nilsimsaStepFC score 120 (near_duplicate_texts.map h) fc
        = (false, near_duplicate_texts.map h) := by
  intro fc hfc
  rcases List.mem_map.mp hfc with ⟨t, ht, rfl⟩
  have ht' : t ∈ near_duplicate_texts := by
    rcases List.mem_flatten.mp ht with ⟨l, hl, htl⟩
    rw [List.eq_of_mem_replicate hl] at htl
    exact htl
  have hfps : extract_fps (make_fc h t) = [h t] := by
    simp [extract_fps, make_fc, List.lookup]
  have hmatch : fps_match score 120 (near_duplicate_texts.map h) [h t] = true := by
    rw [fps_match, List.any_eq_true]
    refine ⟨h t, List.mem_map_of_mem h ht', ?_⟩
    simp
    exact hself t ht'
  simp [nilsimsaStepFC, hfps, hmatch]

/-- Unfolding one decision of the filter over a cons stream. -/
theorem decisionsFC_cons_eq (score : Fp → Fp → Int) (threshold : Int)
    (acc : List Fp) (fc : NFC) (fcs : List NFC) (b : Bool) (acc' : List Fp)
    (hstep : nilsimsaStepFC score threshold acc fc = (b, acc')) :
    nilsimsa_decisionsFC score threshold acc (fc :: fcs)
      = b :: nilsimsa_decisionsFC score threshold acc' fcs := by
  simp only [nilsimsa_decisionsFC, hstep]

/-- Claim C4: over the 4000-candidate stream of the update-logic test (the
four sentences repeated 1000 times, the first item popped as query), the
filter at threshold 120 admits exactly 3 of the 3999 candidates, provided
the abstracted nilsimsa scores behave as the scenario presumes: a
fingerprint compared with itself reaches the threshold and fingerprints of
distinct sentences stay below it. -/
theorem claim_C4_update_logic (score : Fp → Fp → Int) (h : String → Fp)
    (hself : ∀ t ∈ near_duplicate_texts, 120 ≤ score (h t) (h t))
    (hcross : ∀ t ∈ near_duplicate_texts, ∀ u ∈ near_duplicate_texts,
        t ≠ u → score (h t) (h u) < 120) :
    (update_logic_candidates h).length = 3999
    ∧ (nilsimsa_near_duplicates score 120 [update_logic_query h] "0"
        (update_logic_candidates h)).length = 3 := by
  have hlen : (update_logic_candidates h).length = 3999 := by
    have hfull : (update_logic_fcs h).length = 4000 := by
      unfold update_logic_fcs
      rw [List.length_map, List.enum_length, List.length_flatten, List.map_replicate,
        List.sum_replicate]
      rfl
    unfold update_logic_candidates
    rw [List.length_tail, hfull]
  refine ⟨hlen, ?_⟩
  have h01 : score (h "The quick brown fox jumps over the lazy dog.")
      (h "The quick brown fox jumps over the lazy dogs.") < 120 :=
    hcross _ (by decide) _ (by decide) (by decide)
  have h02 : score (h "The quick brown fox jumps over the lazy dog.")
      (h "The quick brown foxes jumped over the lazy dog.") < 120 :=
    hcross _ (by decide) _ (by decide) (by decide)
  have h12 : score (h "The quick brown fox jumps over the lazy dogs.")
      (h "The quick brown foxes jumped over the lazy dog.") < 120 :=
    hcross _ (by decide) _ (by decide) (by decide)
  have h03 : score (h "The quick brown fox jumps over the lazy dog.")
      (h "The quick brown foxes jumped over the lazy dogs.") < 120 :=
    hcross _ (by decide) _ (by decide) (by decide)
  have h13 : score (h "The quick brown fox jumps over the lazy dogs.")
      (h "The quick brown foxes jumped over the lazy dogs.") < 120 :=
    hcross _ (by decide) _ (by decide) (by decide)
  have h23 : score (h "The quick brown foxes jumped over the lazy dog.")
      (h "The quick brown foxes jumped over the lazy dogs.") < 120 :=
    hcross _ (by decide) _ (by decide) (by decide)
  have s1 : nilsimsaStepFC score 120 [h "The quick brown fox jumps over the lazy dog."]
      (make_fc h "The quick brown fox jumps over the lazy dogs.")
      = (true, [h "The quick brown fox jumps over the lazy dog.",
                h "The quick brown fox jumps over the lazy dogs."]) := by
    have hm : fps_match score 120 [h "The quick brown fox jumps over the lazy dog."]
        [h "The quick brown fox jumps over the lazy dogs."] = false := by
      simp [fps_match]
      omega
    simp [nilsimsaStepFC, extract_fps, make_fc, List.lookup, hm]
  have s2 : nilsimsaStepFC score 120
      [h "The quick brown fox jumps over the lazy dog.",
       h "The quick brown fox jumps over the lazy dogs."]
      (make_fc h "The quick brown foxes jumped over the lazy dog.")
      = (true, [h "The quick brown fox jumps over the lazy dog.",
                h "The quick brown fox jumps over the lazy dogs.",
                h "The quick brown foxes jumped over the lazy dog."]) := by
    have hm : fps_match score 120
        [h "The quick brown fox jumps over the lazy dog.",
         h "The quick brown fox jumps over the lazy dogs."]
        [h "The quick brown foxes jumped over the lazy dog."] = false := by
      simp [fps_match]
      omega
    simp [nilsimsaStepFC, extract_fps, make_fc, List.lookup, hm]
  have s3 : nilsimsaStepFC score 120
      [h "The quick brown fox jumps over the lazy dog.",
       h "The quick brown fox jumps over the lazy dogs.",
       h "The quick brown foxes jumped over the lazy dog."]
      (make_fc h "The quick brown foxes jumped over the lazy dogs.")
      = (true, near_duplicate_texts.map h) := by
    have hm : fps_match score 120
        [h "The quick brown fox jumps over the lazy dog.",
         h "The quick brown fox jumps over the lazy dogs.",
         h "The quick brown foxes jumped over the lazy dog."]
        [h "The quick brown foxes jumped over the lazy dogs."] = false := by
      simp [fps_match]
      omega
    simp [nilsimsaStepFC, extract_fps, make_fc, List.lookup, hm, near_duplicate_texts]
  have hquery : update_logic_query h
      = ("0", make_fc h "The quick brown fox jumps over the lazy dog.") := rfl
  rw [hquery]
  rw [show nilsimsa_near_duplicates score 120
        [("0", make_fc h "The quick brown fox jumps over the lazy dog.")] "0"
        (update_logic_candidates h)
      = accumFilter (nilsimsaStep score 120)
          [h "The quick brown fox jumps over the lazy dog."]
          (update_logic_candidates h) from rfl]
  rw [accumFilter_length_eq_count, nilsimsa_decisions_eq_FC,
    update_logic_candidates_map_snd]
  rw [decisionsFC_cons_eq score 120 _ _ _ _ _ s1,
    decisionsFC_cons_eq score 120 _ _ _ _ _ s2,
    decisionsFC_cons_eq score 120 _ _ _ _ _ s3]
  rw [List.count_cons, List.count_cons, List.count_cons,
    decisionsFC_count_true_zero score 120 (near_duplicate_texts.map h)
      (((List.replicate 999 near_duplicate_texts).flatten).map (make_fc h))
      (nilsimsa_rest_rejected score h hself 999)]
  rfl

/-- Witness for C4: with the identity fingerprint and a comparison scoring
identical fingerprints 128 and distinct ones 0, the filter admits exactly 3
of the 3999 candidates. -/
theorem claim_C4_witness :
    (nilsimsa_near_duplicates eq_score 120 [update_logic_query id] "0"
        (update_logic_candidates id)).length = 3 :=
  (claim_C4_update_logic eq_score id
    (by decide)
    (by decide)).2

/-- The reservoir replacement loop never changes the reservoir's length. -/
theorem reservoir_fold_length {α : Type} (choice : Nat → Option Nat)
    (res : List α) (i : Nat) (xs : List α) :
    (reservoir_fold choice res i xs).length = res.length := by
  induction xs generalizing res i with
  | nil => rfl
  | cons x xs ih =>
    simp only [reservoir_fold]
    cases choice i with
    | none => exact ih res (i + 1)
    | some slot => rw [ih (res.set slot x) (i + 1), List.length_set]

/-- Every element of the final reservoir came from the initial reservoir or
from the replacement stream. -/
theorem reservoir_fold_mem {α : Type} (choice : Nat → Option Nat)
    (res : List α) (i : Nat) (xs : List α) (y : α)
    (hy : y ∈ reservoir_fold choice res i xs) : y ∈ res ∨ y ∈ xs := by
  induction xs generalizing res i with
  | nil => exact Or.inl hy
  | cons x xs ih =>
    simp only [reservoir_fold] at hy
    cases hc : choice i with
    | none =>
      rw [hc] at hy
      rcases ih res (i + 1) hy with h | h
      · exact Or.inl h
      · exact Or.inr (List.mem_cons_of_mem x h)
    | some slot =>
      rw [hc] at hy
      rcases ih (res.set slot x) (i + 1) hy with h | h
      · rcases List.mem_or_eq_of_mem_set h with h' | h'
        · exact Or.inl h'
        · exact Or.inr (h' ▸ List.mem_cons_self x xs)
      · exact Or.inr (List.mem_cons_of_mem x h)

/-- Every element of a streaming sample is an element of the stream. -/
theorem streaming_sample_mem {α : Type} (choice : Nat → Option Nat)
    (it : List α) (k limit : Nat) (y : α)
    (hy : y ∈ streaming_sample choice it k limit) : y ∈ it := by
  rcases reservoir_fold_mem choice ((it.take limit).take k) k ((it.take limit).drop k) y hy
    with h | h
  · exact List.mem_of_mem_take (List.mem_of_mem_take h)
  · exact List.mem_of_mem_take (List.mem_of_mem_drop h)

/-- A sample of size 1 with cutoff 1000 is empty exactly on the empty
stream. -/
theorem streaming_sample_one_empty {α : Type} (choice : Nat → Option Nat)
    (it : List α) :
    streaming_sample choice it 1 1000 = [] ↔ it = [] := by
  constructor
  · intro h
    have hlen : (streaming_sample choice it 1 1000).length = 0 := by
      rw [h]
      rfl
    rw [streaming_sample, reservoir_fold_length, List.length_take, List.length_take] at hlen
    cases it with
    | nil => rfl
    | cons a l => simp at hlen
  · intro h
    rw [h]
    rfl

/-- Claim C7: the random feature-collection endpoint runs the streaming
reservoir sampler over the store's id scan with sample size 1 and cutoff
1000, returns 404 exactly when the store is empty, and otherwise returns a
sampled content id of the store together with that id's feature
collection. -/
theorem claim_C7_random_fc {α : Type} (choice : Nat → Option Nat)
    (store : List (ContentId × α)) :
    (v1_random_fc_get choice store
        = Except.error (404, "The feature collection store is empty.")
      ↔ store = [])
    ∧ (store ≠ [] → ∃ cid, cid ∈ store.map Prod.fst
        ∧ v1_random_fc_get choice store = Except.ok (cid, store.lookup cid)) := by
  have hmain : store ≠ [] → ∃ cid, cid ∈ store.map Prod.fst
      ∧ v1_random_fc_get choice store = Except.ok (cid, store.lookup cid) := by
    intro hne
    have hids : store.map Prod.fst ≠ [] := by
      intro h
      exact hne (List.map_eq_nil_iff.mp h)
    have hsne : streaming_sample choice (store.map Prod.fst) 1 1000 ≠ [] := by
      intro h
      exact hids ((streaming_sample_one_empty choice (store.map Prod.fst)).mp h)
    cases hs : streaming_sample choice (store.map Prod.fst) 1 1000 with
    | nil => exact absurd hs hsne
    | cons cid rest =>
      refine ⟨cid, ?_, ?_⟩
      · exact streaming_sample_mem choice (store.map Prod.fst) 1 1000 cid
          (hs ▸ List.mem_cons_self cid rest)
      · simp only [v1_random_fc_get, hs]
  constructor
  · constructor
    · intro herr
      by_contra hne
      rcases hmain hne with ⟨cid, _, hok⟩
      rw [hok] at herr
      cases herr
    · intro h
      subst h
      rfl
  · exact hmain

/-- Witness for C7 on a concrete one-element store. -/
theorem claim_C7_witness :
    ∃ cid, cid ∈ ([("a", [("f", ["v"])])] : List (ContentId × NFC)).map Prod.fst
      ∧ v1_random_fc_get (fun _ => none) [("a", [("f", ["v"])])]
          = Except.ok (cid, ([("a", [("f", ["v"])])] : List (ContentId × NFC)).lookup cid) :=
  (claim_C7_random_fc (fun _ => none) [("a", [("f", ["v"])])]).2 (by decide)
